import Mathlib

/-!
# Service-registration tables and client factories

A shallow embedding of three files of the provider:

* `internal/service/logs/service_package_gen.go`
* `internal/service/opensearchserverless/service_package_gen.go`
* `internal/service/datasync/location_s3_test.go` (the destroy check)

Go values that may be `nil` are `Option`s, a Go panic is the `Except.error`
branch of the result, a Go `map[string]any` is a function from keys to optional
dynamically typed values.
-/

set_option autoImplicit false

/-! ## Descriptor types (`internal/types`) -/

namespace types

/-- A reference to a declared Go function, by the name it is declared under.
The descriptor field that holds one is a func value and may be `nil`, hence the
fields below have type `Option FuncRef`. -/
structure FuncRef where
  name : String
deriving DecidableEq, Repr

/-- Modelled from the spec: the declaration of `types.ServicePackageResourceTags`
is not under src/; the spec's "tag support" descriptor names the attribute that
carries the resource's unique identifier. A Go string field left out of a
composite literal is the empty string. -/
structure ServicePackageResourceTags where
  IdentifierAttribute : String := ""
deriving DecidableEq, Repr

/-- Modelled from the spec: the declaration of
`types.ServicePackageFrameworkDataSource` is not under src/; the spec's
data-source descriptor is a constructor reference and an optional tag-support
descriptor (the frameworked descriptors carry no identifier string in the
literals of the source). -/
structure ServicePackageFrameworkDataSource where
  Factory : Option FuncRef := none
  Tags : Option ServicePackageResourceTags := none
deriving DecidableEq, Repr

/-- Modelled from the spec: the declaration of
`types.ServicePackageFrameworkResource` is not under src/; the fields are the
ones the composite literals of the source set: constructor reference, display
name, optional tag-support descriptor. -/
structure ServicePackageFrameworkResource where
  Factory : Option FuncRef := none
  Name : String := ""
  Tags : Option ServicePackageResourceTags := none
deriving DecidableEq, Repr

/-- Modelled from the spec: the declaration of `types.ServicePackageSDKDataSource`
is not under src/; the spec's data-source descriptor is an identifier, a
constructor reference and an optional tag-support descriptor. -/
structure ServicePackageSDKDataSource where
  Factory : Option FuncRef := none
  TypeName : String := ""
  Tags : Option ServicePackageResourceTags := none
deriving DecidableEq, Repr

/-- Modelled from the spec: the declaration of `types.ServicePackageSDKResource`
is not under src/; the spec's resource descriptor is an identifier, a
constructor reference, an optional display name and an optional tag-support
descriptor. -/
structure ServicePackageSDKResource where
  Factory : Option FuncRef := none
  TypeName : String := ""
  Name : String := ""
  Tags : Option ServicePackageResourceTags := none
deriving DecidableEq, Repr

end types

/-! ## The logs service package: tables -/

namespace logs

open types

/-- The Go method `servicePackage.FrameworkDataSources` of package `logs`. -/
def FrameworkDataSources : List ServicePackageFrameworkDataSource :=
  []

/-- The Go method `servicePackage.FrameworkResources` of package `logs`. -/
def FrameworkResources : List ServicePackageFrameworkResource :=
  []

/-- The Go method `servicePackage.SDKDataSources` of package `logs`. -/
def SDKDataSources : List ServicePackageSDKDataSource :=
  [ { Factory := some ⟨"dataSourceDataProtectionPolicyDocument"⟩,
      TypeName := "aws_cloudwatch_log_data_protection_policy_document" },
    { Factory := some ⟨"dataSourceGroup"⟩,
      TypeName := "aws_cloudwatch_log_group" },
    { Factory := some ⟨"dataSourceGroups"⟩,
      TypeName := "aws_cloudwatch_log_groups" } ]

/-- The Go method `servicePackage.SDKResources` of package `logs`. -/
def SDKResources : List ServicePackageSDKResource :=
  [ { Factory := some ⟨"resourceDataProtectionPolicy"⟩,
      TypeName := "aws_cloudwatch_log_data_protection_policy" },
    { Factory := some ⟨"resourceDestination"⟩,
      TypeName := "aws_cloudwatch_log_destination",
      Name := "Destination",
      Tags := some { IdentifierAttribute := "arn" } },
    { Factory := some ⟨"resourceDestinationPolicy"⟩,
      TypeName := "aws_cloudwatch_log_destination_policy" },
    { Factory := some ⟨"resourceGroup"⟩,
      TypeName := "aws_cloudwatch_log_group",
      Name := "Log Group",
      Tags := some {} },
    { Factory := some ⟨"resourceMetricFilter"⟩,
      TypeName := "aws_cloudwatch_log_metric_filter" },
    { Factory := some ⟨"resourceResourcePolicy"⟩,
      TypeName := "aws_cloudwatch_log_resource_policy" },
    { Factory := some ⟨"resourceStream"⟩,
      TypeName := "aws_cloudwatch_log_stream" },
    { Factory := some ⟨"resourceSubscriptionFilter"⟩,
      TypeName := "aws_cloudwatch_log_subscription_filter" },
    { Factory := some ⟨"resourceQueryDefinition"⟩,
      TypeName := "aws_cloudwatch_query_definition" } ]

end logs

/-! ## The opensearchserverless service package: tables -/

namespace opensearchserverless

open types

/-- The Go method `servicePackage.FrameworkDataSources` of package
`opensearchserverless`. -/
def FrameworkDataSources : List ServicePackageFrameworkDataSource :=
  []

/-- The Go method `servicePackage.FrameworkResources` of package
`opensearchserverless`. -/
def FrameworkResources : List ServicePackageFrameworkResource :=
  [ { Factory := some ⟨"newResourceAccessPolicy"⟩ },
    { Factory := some ⟨"newResourceCollection"⟩,
      Name := "Collection",
      Tags := some { IdentifierAttribute := "arn" } },
    { Factory := some ⟨"newResourceSecurityConfig"⟩ },
    { Factory := some ⟨"newResourceSecurityPolicy"⟩ },
    { Factory := some ⟨"newResourceVPCEndpoint"⟩ } ]

/-- The Go method `servicePackage.SDKDataSources` of package
`opensearchserverless`. -/
def SDKDataSources : List ServicePackageSDKDataSource :=
  []

/-- The Go method `servicePackage.SDKResources` of package
`opensearchserverless`. -/
def SDKResources : List ServicePackageSDKResource :=
  []

end opensearchserverless

/-! ## Go string comparison -/

/-- The bytes of a Go string: the UTF-8 encoding of its characters. -/
def utf8Bytes (s : String) : List Nat :=
  s.data.flatMap (fun c => (String.utf8EncodeChar c).map UInt8.toNat)

/-- Lexicographic comparison of two byte sequences. -/
def bytesLess : List Nat → List Nat → Bool
  | [], [] => false
  | [], _ :: _ => true
  | _ :: _, [] => false
  | a :: as, b :: bs => if a < b then true else if a = b then bytesLess as bs else false

/-- Go's `<` on strings: byte-wise lexicographic comparison. -/
def goStringLess (a b : String) : Bool :=
  bytesLess (utf8Bytes a) (utf8Bytes b)

/-! ## Go run-time values -/

/-- A Go run-time panic: a failed type assertion on the value stored under a
configuration key, or the use of a nil pointer. -/
inductive Panic where
  | typeAssertion (key : String)
  | nilDereference
deriving DecidableEq, Repr

/-- A non-nil Go `error` value. A nil `error` is `none : Option error`. -/
inductive error where
  /-- An error made by `fmt.Errorf` from a format without `%w`. -/
  | errorString (s : String)
  /-- An error of any other dynamic type, by type name and message. -/
  | other (typeName : String) (msg : String)
deriving DecidableEq, Repr

/-- The Go call `fmt.Errorf("DataSync Location S3 %s still exists", id)`. -/
def stillExists (id : String) : error :=
  error.errorString ("DataSync Location S3 " ++ id ++ " still exists")

/-! ## The vendor SDK, first generation -/

namespace aws_sdkv1

/-- The SDK v1 `aws.Config`: every field is a pointer, unset is nil. Only the
fields that matter for endpoint selection are kept. -/
structure Config where
  Endpoint : Option String := none
  Region : Option String := none
deriving DecidableEq, Repr

end aws_sdkv1

/-- The SDK v1 helper `aws.String`: a pointer to the given string, never nil. -/
def aws_sdkv1.String' (v : String) : Option String :=
  some v

/-- The SDK v1 helper `aws.StringValue`: the pointed-to string, or the empty
string for a nil pointer. -/
def aws_sdkv1.StringValue : Option String → String
  | some v => v
  | none => ""

/-- The SDK v1 `mergeInConfig`: every field set in `other` replaces the one of
`dst`. -/
def aws_sdkv1.mergeInConfig (dst other : aws_sdkv1.Config) : aws_sdkv1.Config :=
  { Endpoint := if other.Endpoint.isSome then other.Endpoint else dst.Endpoint,
    Region := if other.Region.isSome then other.Region else dst.Region }

/-- Modelled from the spec: the vendor SDK's endpoint resolution is not under
src/. By the spec's endpoint override policy a non-empty endpoint string is the
endpoint the client routes to, and anything else (an unset or an empty endpoint)
means default resolution, here `none`. -/
def aws_sdkv1.endpointOverride (cfg : aws_sdkv1.Config) : Option String :=
  if aws_sdkv1.StringValue cfg.Endpoint ≠ "" then
    some (aws_sdkv1.StringValue cfg.Endpoint)
  else
    none

namespace session_sdkv1

/-- The SDK v1 `session.Session`, reduced to the configuration it carries. -/
structure Session where
  Config : aws_sdkv1.Config
deriving DecidableEq, Repr

/-- The SDK v1 method `Session.Copy`: a new session whose configuration is the
receiver's with the given configurations merged in, in order. -/
def Session.Copy (s : Session) (cfgs : List aws_sdkv1.Config) : Session :=
  { Config := cfgs.foldl aws_sdkv1.mergeInConfig s.Config }

end session_sdkv1

namespace cloudwatchlogs_sdkv1

/-- The SDK v1 client `cloudwatchlogs.CloudWatchLogs`, reduced to the
configuration of the session it was built from. -/
structure CloudWatchLogs where
  Config : aws_sdkv1.Config
deriving DecidableEq, Repr

/-- The SDK v1 constructor `cloudwatchlogs.New`, called with a session and no
further configuration. -/
def New (p : session_sdkv1.Session) : CloudWatchLogs :=
  { Config := p.Config }

end cloudwatchlogs_sdkv1

/-! ## The vendor SDK, second generation -/

namespace aws_sdkv2

/-- The SDK v2 `aws.Config`, reduced to its region. -/
structure Config where
  Region : String := ""
deriving DecidableEq, Repr

/-- The SDK v2 `aws.Endpoint`, reduced to its URL. -/
structure Endpoint where
  URL : String
deriving DecidableEq, Repr

end aws_sdkv2

namespace cloudwatchlogs_sdkv2

/-- The SDK v2 `cloudwatchlogs.EndpointResolver`: the endpoint a region resolves
to. -/
abbrev EndpointResolver := String → aws_sdkv2.Endpoint

/-- The SDK v2 `cloudwatchlogs.Options`, reduced to region and endpoint
resolver. -/
structure Options where
  Region : String
  EndpointResolver : EndpointResolver

/-- The SDK v2 `cloudwatchlogs.Client`: it holds the options it was built
with. -/
structure Client where
  options : Options

/-- The SDK v2 `cloudwatchlogs.EndpointResolverFromURL`: every region resolves
to the given URL. -/
def EndpointResolverFromURL (url : String) : EndpointResolver :=
  fun _ => { URL := url }

/-- The SDK v2 `cloudwatchlogs.NewFromConfig`. The options the SDK derives from
the configuration alone (region, vendor default endpoint resolution) are the
parameter `fromConfig`; the option functions then run on them in order, each
updating the options in place or panicking. -/
def NewFromConfig (fromConfig : aws_sdkv2.Config → Options) (cfg : aws_sdkv2.Config)
    (optFns : List (Options → Except Panic Options)) : Except Panic Client := do
  let o ← optFns.foldlM (fun o fn => fn o) (fromConfig cfg)
  pure { options := o }

/-- The endpoint a client is configured with: what its resolver yields for its
region. -/
def Client.endpoint (c : Client) : String :=
  (c.options.EndpointResolver c.options.Region).URL

end cloudwatchlogs_sdkv2

namespace opensearchserverless_sdkv2

/-- The SDK v2 `opensearchserverless.EndpointResolver`: the endpoint a region
resolves to. -/
abbrev EndpointResolver := String → aws_sdkv2.Endpoint

/-- The SDK v2 `opensearchserverless.Options`, reduced to region and endpoint
resolver. -/
structure Options where
  Region : String
  EndpointResolver : EndpointResolver

/-- The SDK v2 `opensearchserverless.Client`: it holds the options it was built
with. -/
structure Client where
  options : Options

/-- The SDK v2 `opensearchserverless.EndpointResolverFromURL`: every region
resolves to the given URL. -/
def EndpointResolverFromURL (url : String) : EndpointResolver :=
  fun _ => { URL := url }

/-- The SDK v2 `opensearchserverless.NewFromConfig`. The options the SDK derives
from the configuration alone (region, vendor default endpoint resolution) are
the parameter `fromConfig`; the option functions then run on them in order, each
updating the options in place or panicking. -/
def NewFromConfig (fromConfig : aws_sdkv2.Config → Options) (cfg : aws_sdkv2.Config)
    (optFns : List (Options → Except Panic Options)) : Except Panic Client := do
  let o ← optFns.foldlM (fun o fn => fn o) (fromConfig cfg)
  pure { options := o }

/-- The endpoint a client is configured with: what its resolver yields for its
region. -/
def Client.endpoint (c : Client) : String :=
  (c.options.EndpointResolver c.options.Region).URL

end opensearchserverless_sdkv2

/-! ## The ambient configuration mapping -/

/-- A value of Go type `any` as the factories meet it: a string, a pointer to a
v1 session, a pointer to a v2 configuration (either pointer may be nil), or a
value of some other dynamic type. -/
inductive any where
  | string (s : String)
  | session (p : Option session_sdkv1.Session)
  | sdkv2Config (p : Option aws_sdkv2.Config)
  | other (typeName : String)
deriving DecidableEq, Repr

/-- A Go `map[string]any`. The index expression `config[k]` yields the nil
interface, here `none`, for a key that is absent. -/
abbrev ConfigMap := String → Option any

/-- The Go type assertion `config[key].(string)`. -/
def assertString (key : String) : Option any → Except Panic String
  | some (any.string s) => pure s
  | _ => throw (Panic.typeAssertion key)

/-- The Go type assertion `config[key].(*session_sdkv1.Session)`. -/
def assertSession (key : String) : Option any → Except Panic (Option session_sdkv1.Session)
  | some (any.session p) => pure p
  | _ => throw (Panic.typeAssertion key)

/-- The Go type assertion `config[key].(*aws_sdkv2.Config)`. -/
def assertSDKv2Config (key : String) : Option any → Except Panic (Option aws_sdkv2.Config)
  | some (any.sdkv2Config p) => pure p
  | _ => throw (Panic.typeAssertion key)

/-- The use of a Go pointer: a nil pointer panics. -/
def deref {α : Type} : Option α → Except Panic α
  | some a => pure a
  | none => throw Panic.nilDereference

/-! ## The client factories -/

namespace logs

/-- The Go method `servicePackage.NewConn` of package `logs`. The session is
asserted first, then the arguments of the call are evaluated (the endpoint
assertion), then `Copy` runs on the session pointer. -/
def NewConn (config : ConfigMap) :
    Except Panic (cloudwatchlogs_sdkv1.CloudWatchLogs × Option error) := do
  let sess ← assertSession "session" (config "session")
  let endpoint ← assertString "endpoint" (config "endpoint")
  let s ← deref sess
  pure (cloudwatchlogs_sdkv1.New (s.Copy [{ Endpoint := aws_sdkv1.String' endpoint }]), none)

/-- The function literal passed to `NewFromConfig` by `NewClient` of package
`logs`. -/
def NewClient.optFn (config : ConfigMap) (o : cloudwatchlogs_sdkv2.Options) :
    Except Panic cloudwatchlogs_sdkv2.Options := do
  let endpoint ← assertString "endpoint" (config "endpoint")
  if endpoint ≠ "" then
    pure { o with EndpointResolver := cloudwatchlogs_sdkv2.EndpointResolverFromURL endpoint }
  else
    pure o

/-- The Go method `servicePackage.NewClient` of package `logs`. -/
def NewClient (fromConfig : aws_sdkv2.Config → cloudwatchlogs_sdkv2.Options)
    (config : ConfigMap) : Except Panic (cloudwatchlogs_sdkv2.Client × Option error) := do
  let p ← assertSDKv2Config "aws_sdkv2_config" (config "aws_sdkv2_config")
  let cfg ← deref p
  let c ← cloudwatchlogs_sdkv2.NewFromConfig fromConfig cfg [NewClient.optFn config]
  pure (c, none)

end logs

namespace opensearchserverless

/-- The function literal passed to `NewFromConfig` by `NewClient` of package
`opensearchserverless`. -/
def NewClient.optFn (config : ConfigMap) (o : opensearchserverless_sdkv2.Options) :
    Except Panic opensearchserverless_sdkv2.Options := do
  let endpoint ← assertString "endpoint" (config "endpoint")
  if endpoint ≠ "" then
    pure { o with
      EndpointResolver := opensearchserverless_sdkv2.EndpointResolverFromURL endpoint }
  else
    pure o

/-- The Go method `servicePackage.NewClient` of package `opensearchserverless`. -/
def NewClient (fromConfig : aws_sdkv2.Config → opensearchserverless_sdkv2.Options)
    (config : ConfigMap) :
    Except Panic (opensearchserverless_sdkv2.Client × Option error) := do
  let p ← assertSDKv2Config "aws_sdkv2_config" (config "aws_sdkv2_config")
  let cfg ← deref p
  let c ← opensearchserverless_sdkv2.NewFromConfig fromConfig cfg [NewClient.optFn config]
  pure (c, none)

end opensearchserverless

/-! ## The destroy check of the S3 location tests -/

namespace terraform

/-- The test harness's `terraform.InstanceState`, reduced to its ID. -/
structure InstanceState where
  ID : String
deriving DecidableEq, Repr

/-- The test harness's `terraform.ResourceState`, reduced to type and primary
instance; the pointer to the primary instance is taken to be set. The Go field
`Type` is `Type'` here, `Type` being reserved. -/
structure ResourceState where
  Type' : String
  Primary : InstanceState
deriving DecidableEq, Repr

/-- The test harness's `terraform.ModuleState`. The Go field `Resources` is a
map from resource address to resource state; the list holds its entries in the
order a `range` statement visits them, which Go leaves unspecified. -/
structure ModuleState where
  Resources : List (String × ResourceState)
deriving DecidableEq, Repr

/-- The test harness's `terraform.State`, reduced to its root module. -/
structure State where
  RootModule : ModuleState
deriving DecidableEq, Repr

end terraform

namespace datasync_test

/-- What a run of the destroy check did: the error it returned (nil is `none`)
and the IDs it passed to the lookup, in order. -/
structure CheckRun where
  err : Option error
  lookups : List String
deriving DecidableEq, Repr

/-- The `for ... range` loop of `testAccCheckLocationS3Destroy`. `NotFound`
stands for `tfresource.NotFound` and `FindLocationS3ByARN` for the lookup
`tfdatasync.FindLocationS3ByARN(ctx, conn, id)`, neither of which is under
src/. -/
def testAccCheckLocationS3Destroy.loop {Output : Type} (NotFound : Option error → Bool)
    (FindLocationS3ByARN : String → Option Output × Option error) :
    List (String × terraform.ResourceState) → CheckRun
  | [] => { err := none, lookups := [] }
  | (_, rs) :: rest =>
    if rs.Type' ≠ "aws_datasync_location_s3" then
      testAccCheckLocationS3Destroy.loop NotFound FindLocationS3ByARN rest
    else
      let err := (FindLocationS3ByARN rs.Primary.ID).2
      if NotFound err then
        let r := testAccCheckLocationS3Destroy.loop NotFound FindLocationS3ByARN rest
        { r with lookups := rs.Primary.ID :: r.lookups }
      else if err ≠ none then
        { err := err, lookups := [rs.Primary.ID] }
      else
        { err := some (stillExists rs.Primary.ID), lookups := [rs.Primary.ID] }

/-- The Go function `testAccCheckLocationS3Destroy`, applied to a state. The
connection it takes from the provider is only handed to the lookup and is part
of `FindLocationS3ByARN` here. -/
def testAccCheckLocationS3Destroy {Output : Type} (NotFound : Option error → Bool)
    (FindLocationS3ByARN : String → Option Output × Option error)
    (s : terraform.State) : CheckRun :=
  testAccCheckLocationS3Destroy.loop NotFound FindLocationS3ByARN s.RootModule.Resources

end datasync_test

/-! ## Sample inputs -/

/-- A configuration mapping as the host supplies it: a v1 session and a v2
configuration for region us-west-2, and the given endpoint string. -/
def sampleConfig (endpoint : String) : ConfigMap := fun k =>
  if k = "endpoint" then some (any.string endpoint)
  else if k = "aws_sdkv2_config" then some (any.sdkv2Config (some { Region := "us-west-2" }))
  else if k = "session" then
    some (any.session (some { Config := { Region := some "us-west-2" } }))
  else none

/-- Sample options derivation for the logs client: the region of the
configuration and a resolver that names the regional vendor endpoint. -/
def sampleLogsOptions (cfg : aws_sdkv2.Config) : cloudwatchlogs_sdkv2.Options :=
  { Region := cfg.Region,
    EndpointResolver := fun region => { URL := "https://logs." ++ region ++ ".amazonaws.com" } }

/-- Sample options derivation for the opensearchserverless client: the region
of the configuration and a resolver that names the regional vendor endpoint. -/
def sampleOpenSearchOptions (cfg : aws_sdkv2.Config) : opensearchserverless_sdkv2.Options :=
  { Region := cfg.Region,
    EndpointResolver := fun region => { URL := "https://aoss." ++ region ++ ".amazonaws.com" } }

/-- Sample not-found test: an error counts as "not found" when its dynamic type
is the retry package's NotFoundError. -/
def sampleNotFound : Option error → Bool
  | some (error.other "retry.NotFoundError" _) => true
  | _ => false

/-- Sample lookup: the location "loc-gone" is not found, the lookup of
"loc-denied" fails with an access error, every other location exists. -/
def sampleFind (id : String) : Option Unit × Option error :=
  if id = "loc-gone" then (none, some (error.other "retry.NotFoundError" "not found"))
  else if id = "loc-denied" then (none, some (error.other "awserr.Error" "AccessDenied"))
  else (some (), none)

/-- Sample state: a bucket, a role and one S3 location with the given ID. -/
def sampleState (id : String) : terraform.State :=
  { RootModule := { Resources :=
      [ ("aws_s3_bucket.test", { Type' := "aws_s3_bucket", Primary := { ID := "bucket" } }),
        ("aws_datasync_location_s3.test",
          { Type' := "aws_datasync_location_s3", Primary := { ID := id } }),
        ("aws_iam_role.test", { Type' := "aws_iam_role", Primary := { ID := "role" } }) ] } }

/-! ## Theorems: the descriptor tables -/

/-- C1: in every descriptor table of the logs service package no two descriptors
have the same TypeName. The two SDK tables have 3 and 9 entries and pairwise
distinct TypeNames at distinct positions; the two framework tables are empty, so
whatever is read as the identifier of a descriptor there, no two positions
share it. -/
theorem logs_TypeName_pairwise_distinct :
    logs.SDKDataSources.length = 3 ∧ logs.SDKResources.length = 9 ∧
    (∀ i j : Fin logs.SDKDataSources.length, i ≠ j →
      (logs.SDKDataSources.get i).TypeName ≠ (logs.SDKDataSources.get j).TypeName) ∧
    (∀ i j : Fin logs.SDKResources.length, i ≠ j →
      (logs.SDKResources.get i).TypeName ≠ (logs.SDKResources.get j).TypeName) ∧
    logs.FrameworkDataSources = [] ∧ logs.FrameworkResources = [] ∧
    (∀ (ident : types.ServicePackageFrameworkDataSource → String)
      (i j : Fin logs.FrameworkDataSources.length), i ≠ j →
      ident (logs.FrameworkDataSources.get i) ≠ ident (logs.FrameworkDataSources.get j)) ∧
    (∀ (ident : types.ServicePackageFrameworkResource → String)
      (i j : Fin logs.FrameworkResources.length), i ≠ j →
      ident (logs.FrameworkResources.get i) ≠ ident (logs.FrameworkResources.get j)) := by
  refine ⟨rfl, rfl, by decide, by decide, rfl, rfl, ?_, ?_⟩
  · intro _ i
    exact i.elim0
  · intro _ i
    exact i.elim0

/-- C6: every descriptor of every table of the logs and of the
opensearchserverless service package has its Factory field set (not nil). -/
theorem Factory_non_nil :
    (∀ d ∈ logs.FrameworkDataSources, d.Factory ≠ none) ∧
    (∀ d ∈ logs.FrameworkResources, d.Factory ≠ none) ∧
    (∀ d ∈ logs.SDKDataSources, d.Factory ≠ none) ∧
    (∀ d ∈ logs.SDKResources, d.Factory ≠ none) ∧
    (∀ d ∈ opensearchserverless.FrameworkDataSources, d.Factory ≠ none) ∧
    (∀ d ∈ opensearchserverless.FrameworkResources, d.Factory ≠ none) ∧
    (∀ d ∈ opensearchserverless.SDKDataSources, d.Factory ≠ none) ∧
    (∀ d ∈ opensearchserverless.SDKResources, d.Factory ≠ none) ∧
    logs.SDKDataSources.length = 3 ∧ logs.SDKResources.length = 9 ∧
    opensearchserverless.FrameworkResources.length = 5 := by
  decide

/-- C7, as stated, fails: the logs resource `aws_cloudwatch_log_group`, entry 3 of
logs SDKResources, carries a tag-support descriptor whose IdentifierAttribute is
the empty string. -/
theorem Tags_IdentifierAttribute_empty_for_log_group :
    (logs.SDKResources.get ⟨3, by decide⟩).TypeName = "aws_cloudwatch_log_group" ∧
    (logs.SDKResources.get ⟨3, by decide⟩).Tags = some { IdentifierAttribute := "" } ∧
    ¬ ((∀ d ∈ logs.SDKResources, ∀ t, d.Tags = some t → t.IdentifierAttribute ≠ "") ∧
       (∀ d ∈ opensearchserverless.FrameworkResources,
          ∀ t, d.Tags = some t → t.IdentifierAttribute ≠ "")) := by
  refine ⟨rfl, rfl, ?_⟩
  intro h
  exact h.1 (logs.SDKResources.get ⟨3, by decide⟩) (List.get_mem _ _ _) {} rfl rfl

/-- C7, amended: a resource descriptor that carries a tag-support descriptor
names a non-empty identifier attribute, except the logs resource
`aws_cloudwatch_log_group`, whose tag-support descriptor has the empty
IdentifierAttribute. -/
theorem Tags_IdentifierAttribute_non_empty_except_log_group :
    (∀ d ∈ logs.SDKResources, ∀ t, d.Tags = some t →
      (t.IdentifierAttribute = "" ↔ d.TypeName = "aws_cloudwatch_log_group")) ∧
    (∀ d ∈ opensearchserverless.FrameworkResources,
      ∀ t, d.Tags = some t → t.IdentifierAttribute ≠ "") := by
  have h1 : ∀ d ∈ logs.SDKResources, ∀ t ∈ d.Tags,
      (t.IdentifierAttribute = "" ↔ d.TypeName = "aws_cloudwatch_log_group") := by decide
  have h2 : ∀ d ∈ opensearchserverless.FrameworkResources, ∀ t ∈ d.Tags,
      t.IdentifierAttribute ≠ "" := by decide
  exact ⟨fun d hd t ht => h1 d hd t ht, fun d hd t ht => h2 d hd t ht⟩

/-- C9: in the resource tables of the two service packages a descriptor has a
non-empty display Name exactly when its Tags field is present; the named entries
are "Destination" and "Log Group" in logs and "Collection" in
opensearchserverless, and these are also the tagged entries. -/
theorem Name_non_empty_iff_Tags_present :
    (∀ d ∈ logs.SDKResources, d.Name ≠ "" ↔ d.Tags ≠ none) ∧
    (∀ d ∈ opensearchserverless.FrameworkResources, d.Name ≠ "" ↔ d.Tags ≠ none) ∧
    (logs.SDKResources.filter (fun d => d.Name ≠ "")).map (fun d => d.Name) =
      ["Destination", "Log Group"] ∧
    (logs.SDKResources.filter (fun d => d.Tags ≠ none)).map (fun d => d.Name) =
      ["Destination", "Log Group"] ∧
    (opensearchserverless.FrameworkResources.filter (fun d => d.Name ≠ "")).map
      (fun d => d.Name) = ["Collection"] ∧
    (opensearchserverless.FrameworkResources.filter (fun d => d.Tags ≠ none)).map
      (fun d => d.Name) = ["Collection"] ∧
    (∀ d ∈ logs.SDKResources, d.Tags = none → d.Name = "") ∧
    (∀ d ∈ opensearchserverless.FrameworkResources, d.Tags = none → d.Name = "") := by
  decide

/-- C10: the tables of logs SDKDataSources and logs SDKResources are in strictly
ascending byte-wise order of TypeName: each entry is less than the next one, and
hence less than every later one. -/
theorem logs_TypeName_strictly_ascending :
    List.Chain' (fun a b => goStringLess a b = true)
      (logs.SDKDataSources.map (fun d => d.TypeName)) ∧
    List.Chain' (fun a b => goStringLess a b = true)
      (logs.SDKResources.map (fun d => d.TypeName)) ∧
    List.Pairwise (fun a b => goStringLess a b = true)
      (logs.SDKDataSources.map (fun d => d.TypeName)) ∧
    List.Pairwise (fun a b => goStringLess a b = true)
      (logs.SDKResources.map (fun d => d.TypeName)) := by
  refine ⟨?_, ?_, ?_, ?_⟩
  · simp only [logs.SDKDataSources, List.map, List.chain'_cons, List.chain'_singleton]
    decide
  · simp only [logs.SDKResources, List.map, List.chain'_cons, List.chain'_singleton]
    decide
  · decide
  · decide

/-! ## Lemmas: what the client factories compute -/

theorem logs_NewClient_ok (f : aws_sdkv2.Config → cloudwatchlogs_sdkv2.Options)
    (config : ConfigMap) (cfg : aws_sdkv2.Config) (e : String)
    (hcfg : config "aws_sdkv2_config" = some (any.sdkv2Config (some cfg)))
    (hend : config "endpoint" = some (any.string e)) :
    logs.NewClient f config =
      .ok ({ options := if e ≠ "" then
               { f cfg with EndpointResolver := cloudwatchlogs_sdkv2.EndpointResolverFromURL e }
             else f cfg }, none) := by
  unfold logs.NewClient
  simp only [hcfg, assertSDKv2Config, deref, cloudwatchlogs_sdkv2.NewFromConfig,
    List.foldlM, logs.NewClient.optFn, hend, assertString, bind, Except.bind, pure, Except.pure]
  by_cases h : e = "" <;> simp [h, pure, Except.pure]

theorem logs_NewClient_inv (f : aws_sdkv2.Config → cloudwatchlogs_sdkv2.Options)
    (config : ConfigMap) (c : cloudwatchlogs_sdkv2.Client) (err : Option error)
    (h : logs.NewClient f config = .ok (c, err)) :
    ∃ cfg e, config "aws_sdkv2_config" = some (any.sdkv2Config (some cfg)) ∧
      config "endpoint" = some (any.string e) := by
  unfold logs.NewClient at h
  cases h1 : config "aws_sdkv2_config" with
  | none =>
    simp [h1, assertSDKv2Config, bind, Except.bind, throw, throwThe, MonadExceptOf.throw] at h
  | some v =>
    cases v with
    | sdkv2Config p =>
      cases p with
      | none =>
        simp [h1, assertSDKv2Config, deref, bind, Except.bind, pure, Except.pure, throw,
          throwThe, MonadExceptOf.throw] at h
      | some cfg =>
        cases h2 : config "endpoint" with
        | none =>
          simp [h1, h2, assertSDKv2Config, deref, cloudwatchlogs_sdkv2.NewFromConfig,
            List.foldlM, logs.NewClient.optFn, assertString, bind, Except.bind, pure,
            Except.pure, throw, throwThe, MonadExceptOf.throw] at h
        | some w =>
          cases w with
          | string e => exact ⟨cfg, e, rfl, rfl⟩
          | _ =>
            simp [h1, h2, assertSDKv2Config, deref, cloudwatchlogs_sdkv2.NewFromConfig,
              List.foldlM, logs.NewClient.optFn, assertString, bind, Except.bind, pure,
              Except.pure, throw, throwThe, MonadExceptOf.throw] at h
    | _ =>
      simp [h1, assertSDKv2Config, bind, Except.bind, throw, throwThe,
        MonadExceptOf.throw] at h

theorem opensearchserverless_NewClient_ok
    (f : aws_sdkv2.Config → opensearchserverless_sdkv2.Options)
    (config : ConfigMap) (cfg : aws_sdkv2.Config) (e : String)
    (hcfg : config "aws_sdkv2_config" = some (any.sdkv2Config (some cfg)))
    (hend : config "endpoint" = some (any.string e)) :
    opensearchserverless.NewClient f config =
      .ok ({ options := if e ≠ "" then
               { f cfg with
                 EndpointResolver := opensearchserverless_sdkv2.EndpointResolverFromURL e }
             else f cfg }, none) := by
  unfold opensearchserverless.NewClient
  simp only [hcfg, assertSDKv2Config, deref, opensearchserverless_sdkv2.NewFromConfig,
    List.foldlM, opensearchserverless.NewClient.optFn, hend, assertString, bind, Except.bind,
    pure, Except.pure]
  by_cases h : e = "" <;> simp [h, pure, Except.pure]

theorem opensearchserverless_NewClient_inv
    (f : aws_sdkv2.Config → opensearchserverless_sdkv2.Options)
    (config : ConfigMap) (c : opensearchserverless_sdkv2.Client) (err : Option error)
    (h : opensearchserverless.NewClient f config = .ok (c, err)) :
    ∃ cfg e, config "aws_sdkv2_config" = some (any.sdkv2Config (some cfg)) ∧
      config "endpoint" = some (any.string e) := by
  unfold opensearchserverless.NewClient at h
  cases h1 : config "aws_sdkv2_config" with
  | none =>
    simp [h1, assertSDKv2Config, bind, Except.bind, throw, throwThe, MonadExceptOf.throw] at h
  | some v =>
    cases v with
    | sdkv2Config p =>
      cases p with
      | none =>
        simp [h1, assertSDKv2Config, deref, bind, Except.bind, pure, Except.pure, throw,
          throwThe, MonadExceptOf.throw] at h
      | some cfg =>
        cases h2 : config "endpoint" with
        | none =>
          simp [h1, h2, assertSDKv2Config, deref, opensearchserverless_sdkv2.NewFromConfig,
            List.foldlM, opensearchserverless.NewClient.optFn, assertString, bind, Except.bind,
            pure, Except.pure, throw, throwThe, MonadExceptOf.throw] at h
        | some w =>
          cases w with
          | string e => exact ⟨cfg, e, rfl, rfl⟩
          | _ =>
            simp [h1, h2, assertSDKv2Config, deref, opensearchserverless_sdkv2.NewFromConfig,
              List.foldlM, opensearchserverless.NewClient.optFn, assertString, bind,
              Except.bind, pure, Except.pure, throw, throwThe, MonadExceptOf.throw] at h
    | _ =>
      simp [h1, assertSDKv2Config, bind, Except.bind, throw, throwThe,
        MonadExceptOf.throw] at h

theorem logs_NewConn_ok (config : ConfigMap) (sess : session_sdkv1.Session) (e : String)
    (hsess : config "session" = some (any.session (some sess)))
    (hend : config "endpoint" = some (any.string e)) :
    logs.NewConn config =
      .ok (cloudwatchlogs_sdkv1.New (sess.Copy [{ Endpoint := aws_sdkv1.String' e }]), none) := by
  unfold logs.NewConn
  simp [hsess, hend, assertSession, assertString, deref, bind, Except.bind, pure, Except.pure]

theorem logs_NewConn_inv (config : ConfigMap) (c : cloudwatchlogs_sdkv1.CloudWatchLogs)
    (err : Option error) (h : logs.NewConn config = .ok (c, err)) :
    ∃ sess e, config "session" = some (any.session (some sess)) ∧
      config "endpoint" = some (any.string e) := by
  unfold logs.NewConn at h
  cases h1 : config "session" with
  | none =>
    simp [h1, assertSession, bind, Except.bind, throw, throwThe, MonadExceptOf.throw] at h
  | some v =>
    cases v with
    | session p =>
      cases h2 : config "endpoint" with
      | none =>
        simp [h1, h2, assertSession, assertString, bind, Except.bind, pure, Except.pure, throw,
          throwThe, MonadExceptOf.throw] at h
      | some w =>
        cases w with
        | string e =>
          cases p with
          | none =>
            simp [h1, h2, assertSession, assertString, deref, bind, Except.bind, pure,
              Except.pure, throw, throwThe, MonadExceptOf.throw] at h
          | some sess => exact ⟨sess, e, rfl, rfl⟩
        | _ =>
          simp [h1, h2, assertSession, assertString, bind, Except.bind, pure, Except.pure,
            throw, throwThe, MonadExceptOf.throw] at h
    | _ =>
      simp [h1, assertSession, bind, Except.bind, throw, throwThe, MonadExceptOf.throw] at h

/-- A factory result that is a client with a nil error exactly on the
well-shaped configurations panics on all others. -/
theorem factory_fails_iff {α : Type} (x : Except Panic (α × Option error)) (W : Prop)
    (hok : W → ∃ c, x = .ok (c, none))
    (hinv : ∀ c err, x = .ok (c, err) → W) :
    ((∃ c, x = .ok (c, none)) ↔ W) ∧ ((∃ p, x = .error p) ↔ ¬ W) ∧
    (∀ c err, x = .ok (c, err) → err = none) := by
  refine ⟨⟨fun ⟨c, hc⟩ => hinv c none hc, hok⟩, ⟨?_, ?_⟩, ?_⟩
  · rintro ⟨p, hp⟩ hW
    obtain ⟨c, hc⟩ := hok hW
    rw [hp] at hc
    cases hc
  · intro hW
    cases hx : x with
    | error p => exact ⟨p, rfl⟩
    | ok r => exact absurd (hinv r.1 r.2 hx) hW
  · intro c err hc
    obtain ⟨c2, hc2⟩ := hok (hinv c err hc)
    rw [hc] at hc2
    cases hc2
    rfl

/-! ## Lemmas: the loop of the destroy check -/

namespace datasync_test

variable {Output : Type}

theorem loop_err_none_iff (NotFound : Option error → Bool)
    (Find : String → Option Output × Option error)
    (l : List (String × terraform.ResourceState)) :
    (testAccCheckLocationS3Destroy.loop NotFound Find l).err = none ↔
      ∀ kv ∈ l, kv.2.Type' = "aws_datasync_location_s3" →
        NotFound (Find kv.2.Primary.ID).2 = true := by
  induction l with
  | nil => simp [testAccCheckLocationS3Destroy.loop]
  | cons kv rest ih =>
    obtain ⟨k, rs⟩ := kv
    by_cases hT : rs.Type' = "aws_datasync_location_s3"
    · by_cases hN : NotFound (Find rs.Primary.ID).2 = true
      · simp [testAccCheckLocationS3Destroy.loop, hT, hN, ih]
      · by_cases hE : (Find rs.Primary.ID).2 = none
        · have hN0 := hN
          rw [hE] at hN0
          simp [testAccCheckLocationS3Destroy.loop, hT, hE, hN0]
        · simp [testAccCheckLocationS3Destroy.loop, hT, hN, hE]
    · simp [testAccCheckLocationS3Destroy.loop, hT, ih]

theorem loop_lookups (NotFound : Option error → Bool)
    (Find : String → Option Output × Option error)
    (l : List (String × terraform.ResourceState)) :
    ∀ id ∈ (testAccCheckLocationS3Destroy.loop NotFound Find l).lookups,
      ∃ kv ∈ l, kv.2.Type' = "aws_datasync_location_s3" ∧ kv.2.Primary.ID = id := by
  induction l with
  | nil => simp [testAccCheckLocationS3Destroy.loop]
  | cons kv rest ih =>
    obtain ⟨k, rs⟩ := kv
    intro id hid
    by_cases hT : rs.Type' = "aws_datasync_location_s3"
    · by_cases hN : NotFound (Find rs.Primary.ID).2 = true
      · simp only [testAccCheckLocationS3Destroy.loop, hT, hN, ne_eq, not_true_eq_false,
          if_false, if_true, List.mem_cons] at hid
        rcases hid with rfl | hid
        · exact ⟨(k, rs), List.mem_cons_self _ _, hT, rfl⟩
        · obtain ⟨kv, hkv, h1, h2⟩ := ih id hid
          exact ⟨kv, List.mem_cons_of_mem _ hkv, h1, h2⟩
      · have hid2 : id = rs.Primary.ID := by
          by_cases hE : (Find rs.Primary.ID).2 = none
          · have hN0 := hN
            rw [hE] at hN0
            simpa [testAccCheckLocationS3Destroy.loop, hT, hE, hN0] using hid
          · simpa [testAccCheckLocationS3Destroy.loop, hT, hN, hE] using hid
        exact ⟨(k, rs), List.mem_cons_self _ _, hT, hid2.symm⟩
    · simp only [testAccCheckLocationS3Destroy.loop, hT, ne_eq, not_false_eq_true,
        if_true] at hid
      obtain ⟨kv, hkv, h1, h2⟩ := ih id hid
      exact ⟨kv, List.mem_cons_of_mem _ hkv, h1, h2⟩

theorem loop_filter (NotFound : Option error → Bool)
    (Find : String → Option Output × Option error)
    (l : List (String × terraform.ResourceState)) :
    testAccCheckLocationS3Destroy.loop NotFound Find l =
      testAccCheckLocationS3Destroy.loop NotFound Find
        (l.filter (fun kv => kv.2.Type' = "aws_datasync_location_s3")) := by
  induction l with
  | nil => rfl
  | cons kv rest ih =>
    obtain ⟨k, rs⟩ := kv
    by_cases hT : rs.Type' = "aws_datasync_location_s3"
    · simp only [List.filter, hT, decide_True, testAccCheckLocationS3Destroy.loop]
      rw [← ih]
    · simp only [List.filter, hT, decide_False, testAccCheckLocationS3Destroy.loop, ne_eq,
        not_false_eq_true, if_true]
      exact ih

theorem loop_congr (NotFound : Option error → Bool)
    (Find Find2 : String → Option Output × Option error)
    (l : List (String × terraform.ResourceState))
    (h : ∀ kv ∈ l, kv.2.Type' = "aws_datasync_location_s3" →
      (Find2 kv.2.Primary.ID).2 = (Find kv.2.Primary.ID).2) :
    testAccCheckLocationS3Destroy.loop NotFound Find2 l =
      testAccCheckLocationS3Destroy.loop NotFound Find l := by
  induction l with
  | nil => rfl
  | cons kv rest ih =>
    obtain ⟨k, rs⟩ := kv
    have ih2 := ih (fun kv hkv => h kv (List.mem_cons_of_mem _ hkv))
    by_cases hT : rs.Type' = "aws_datasync_location_s3"
    · have h0 := h (k, rs) (List.mem_cons_self _ _) hT
      simp only [testAccCheckLocationS3Destroy.loop, h0, ih2]
    · simp only [testAccCheckLocationS3Destroy.loop, hT, ne_eq, not_false_eq_true, if_true]
      exact ih2

theorem loop_err_some (NotFound : Option error → Bool)
    (Find : String → Option Output × Option error)
    (l : List (String × terraform.ResourceState)) (e : error)
    (he : (testAccCheckLocationS3Destroy.loop NotFound Find l).err = some e) :
    ∃ kv ∈ l, kv.2.Type' = "aws_datasync_location_s3" ∧
      NotFound (Find kv.2.Primary.ID).2 = false ∧
      ((Find kv.2.Primary.ID).2 = some e ∨
        ((Find kv.2.Primary.ID).2 = none ∧ e = stillExists kv.2.Primary.ID)) := by
  induction l with
  | nil => simp [testAccCheckLocationS3Destroy.loop] at he
  | cons kv rest ih =>
    obtain ⟨k, rs⟩ := kv
    by_cases hT : rs.Type' = "aws_datasync_location_s3"
    · by_cases hN : NotFound (Find rs.Primary.ID).2 = true
      · simp only [testAccCheckLocationS3Destroy.loop, hT, hN, ne_eq, not_true_eq_false,
          if_false, if_true] at he
        obtain ⟨kv, hkv, h1, h2, h3⟩ := ih he
        exact ⟨kv, List.mem_cons_of_mem _ hkv, h1, h2, h3⟩
      · have hN2 : NotFound (Find rs.Primary.ID).2 = false := by simpa using hN
        by_cases hE : (Find rs.Primary.ID).2 = none
        · have hN0 := hN
          rw [hE] at hN0
          have : e = stillExists rs.Primary.ID := by
            simp only [testAccCheckLocationS3Destroy.loop, hT, hE, hN0, ne_eq,
              not_true_eq_false, Bool.false_eq_true, if_false, Option.some.injEq] at he
            exact he.symm
          exact ⟨(k, rs), List.mem_cons_self _ _, hT, hN2, Or.inr ⟨hE, this⟩⟩
        · have : (Find rs.Primary.ID).2 = some e := by
            simpa [testAccCheckLocationS3Destroy.loop, hT, hN, hE] using he
          exact ⟨(k, rs), List.mem_cons_self _ _, hT, hN2, Or.inl this⟩
    · simp only [testAccCheckLocationS3Destroy.loop, hT, ne_eq, not_false_eq_true,
        if_true] at he
      obtain ⟨kv, hkv, h1, h2, h3⟩ := ih he
      exact ⟨kv, List.mem_cons_of_mem _ hkv, h1, h2, h3⟩

end datasync_test

/-! ## Theorems: the client factories -/

/-- C2: for NewClient of logs and of opensearchserverless, when the "endpoint"
value of the configuration mapping is a non-empty string `e`, the options
callback sets the endpoint resolver to the one built from exactly `e`; with an
SDK v2 configuration in the mapping a client is produced, its resolver is that
one and its configured endpoint is `e`; and no client is produced with any other
resolver. -/
theorem NewClient_endpoint_override
    (f1 : aws_sdkv2.Config → cloudwatchlogs_sdkv2.Options)
    (f2 : aws_sdkv2.Config → opensearchserverless_sdkv2.Options)
    (config : ConfigMap) (e : String)
    (hend : config "endpoint" = some (any.string e)) (hne : e ≠ "") :
    ((∀ o, logs.NewClient.optFn config o =
        .ok { o with EndpointResolver := cloudwatchlogs_sdkv2.EndpointResolverFromURL e }) ∧
     (∀ cfg, config "aws_sdkv2_config" = some (any.sdkv2Config (some cfg)) →
        ∃ c, logs.NewClient f1 config = .ok (c, none) ∧
          c.options.EndpointResolver = cloudwatchlogs_sdkv2.EndpointResolverFromURL e ∧
          c.options.Region = (f1 cfg).Region ∧ c.endpoint = e) ∧
     (∀ c err, logs.NewClient f1 config = .ok (c, err) →
        c.options.EndpointResolver = cloudwatchlogs_sdkv2.EndpointResolverFromURL e ∧
        c.endpoint = e)) ∧
    ((∀ o, opensearchserverless.NewClient.optFn config o =
        .ok { o with
          EndpointResolver := opensearchserverless_sdkv2.EndpointResolverFromURL e }) ∧
     (∀ cfg, config "aws_sdkv2_config" = some (any.sdkv2Config (some cfg)) →
        ∃ c, opensearchserverless.NewClient f2 config = .ok (c, none) ∧
          c.options.EndpointResolver = opensearchserverless_sdkv2.EndpointResolverFromURL e ∧
          c.options.Region = (f2 cfg).Region ∧ c.endpoint = e) ∧
     (∀ c err, opensearchserverless.NewClient f2 config = .ok (c, err) →
        c.options.EndpointResolver = opensearchserverless_sdkv2.EndpointResolverFromURL e ∧
        c.endpoint = e)) := by
  refine ⟨⟨?_, ?_, ?_⟩, ⟨?_, ?_, ?_⟩⟩
  · intro o
    simp [logs.NewClient.optFn, hend, assertString, hne, bind, Except.bind, pure, Except.pure]
  · intro cfg hcfg
    refine ⟨_, logs_NewClient_ok f1 config cfg e hcfg hend, ?_, ?_, ?_⟩ <;>
      simp [hne, cloudwatchlogs_sdkv2.Client.endpoint,
        cloudwatchlogs_sdkv2.EndpointResolverFromURL]
  · intro c err h
    obtain ⟨cfg, e2, hcfg, hend2⟩ := logs_NewClient_inv f1 config c err h
    rw [hend] at hend2
    cases hend2
    rw [logs_NewClient_ok f1 config cfg e hcfg hend] at h
    cases h
    simp [hne, cloudwatchlogs_sdkv2.Client.endpoint,
      cloudwatchlogs_sdkv2.EndpointResolverFromURL]
  · intro o
    simp [opensearchserverless.NewClient.optFn, hend, assertString, hne, bind, Except.bind,
      pure, Except.pure]
  · intro cfg hcfg
    refine ⟨_, opensearchserverless_NewClient_ok f2 config cfg e hcfg hend, ?_, ?_, ?_⟩ <;>
      simp [hne, opensearchserverless_sdkv2.Client.endpoint,
        opensearchserverless_sdkv2.EndpointResolverFromURL]
  · intro c err h
    obtain ⟨cfg, e2, hcfg, hend2⟩ := opensearchserverless_NewClient_inv f2 config c err h
    rw [hend] at hend2
    cases hend2
    rw [opensearchserverless_NewClient_ok f2 config cfg e hcfg hend] at h
    cases h
    simp [hne, opensearchserverless_sdkv2.Client.endpoint,
      opensearchserverless_sdkv2.EndpointResolverFromURL]

/-- C2 at a concrete input: with the endpoint "http://localhost:4566" both
factories produce a client whose configured endpoint is that string. -/
theorem NewClient_endpoint_override_witness :
    sampleConfig "http://localhost:4566" "endpoint" =
      some (any.string "http://localhost:4566") ∧
    "http://localhost:4566" ≠ "" ∧
    (∃ c, logs.NewClient sampleLogsOptions (sampleConfig "http://localhost:4566") =
        .ok (c, none) ∧ c.endpoint = "http://localhost:4566") ∧
    (∃ c, opensearchserverless.NewClient sampleOpenSearchOptions
        (sampleConfig "http://localhost:4566") = .ok (c, none) ∧
        c.endpoint = "http://localhost:4566") := by
  have h := NewClient_endpoint_override sampleLogsOptions sampleOpenSearchOptions
    (sampleConfig "http://localhost:4566") "http://localhost:4566" rfl (by decide)
  refine ⟨rfl, by decide, ?_, ?_⟩
  · obtain ⟨c, hc, _, _, hc2⟩ := h.1.2.1 { Region := "us-west-2" } rfl
    exact ⟨c, hc, hc2⟩
  · obtain ⟨c, hc, _, _, hc2⟩ := h.2.2.1 { Region := "us-west-2" } rfl
    exact ⟨c, hc, hc2⟩

/-- C3: for NewClient of logs and of opensearchserverless, when the "endpoint"
value of the configuration mapping is the empty string, the options callback
leaves the options, the endpoint resolver among them, as they are; with an SDK
v2 configuration in the mapping a client is produced and its options are exactly
the ones the SDK derives from that configuration, so its configured endpoint is
the one the SDK's resolution yields for the region; and no client is produced
with other options. -/
theorem NewClient_empty_endpoint_keeps_resolver
    (f1 : aws_sdkv2.Config → cloudwatchlogs_sdkv2.Options)
    (f2 : aws_sdkv2.Config → opensearchserverless_sdkv2.Options)
    (config : ConfigMap)
    (hend : config "endpoint" = some (any.string "")) :
    ((∀ o, logs.NewClient.optFn config o = .ok o) ∧
     (∀ cfg, config "aws_sdkv2_config" = some (any.sdkv2Config (some cfg)) →
        ∃ c, logs.NewClient f1 config = .ok (c, none) ∧ c.options = f1 cfg ∧
          c.options.EndpointResolver = (f1 cfg).EndpointResolver ∧
          c.endpoint = ((f1 cfg).EndpointResolver (f1 cfg).Region).URL) ∧
     (∀ c err, logs.NewClient f1 config = .ok (c, err) →
        ∃ cfg, config "aws_sdkv2_config" = some (any.sdkv2Config (some cfg)) ∧
          c.options = f1 cfg)) ∧
    ((∀ o, opensearchserverless.NewClient.optFn config o = .ok o) ∧
     (∀ cfg, config "aws_sdkv2_config" = some (any.sdkv2Config (some cfg)) →
        ∃ c, opensearchserverless.NewClient f2 config = .ok (c, none) ∧ c.options = f2 cfg ∧
          c.options.EndpointResolver = (f2 cfg).EndpointResolver ∧
          c.endpoint = ((f2 cfg).EndpointResolver (f2 cfg).Region).URL) ∧
     (∀ c err, opensearchserverless.NewClient f2 config = .ok (c, err) →
        ∃ cfg, config "aws_sdkv2_config" = some (any.sdkv2Config (some cfg)) ∧
          c.options = f2 cfg)) := by
  refine ⟨⟨?_, ?_, ?_⟩, ⟨?_, ?_, ?_⟩⟩
  · intro o
    simp [logs.NewClient.optFn, hend, assertString, bind, Except.bind, pure, Except.pure]
  · intro cfg hcfg
    refine ⟨_, logs_NewClient_ok f1 config cfg "" hcfg hend, ?_, ?_, ?_⟩ <;>
      simp [cloudwatchlogs_sdkv2.Client.endpoint]
  · intro c err h
    obtain ⟨cfg, e2, hcfg, hend2⟩ := logs_NewClient_inv f1 config c err h
    rw [logs_NewClient_ok f1 config cfg "" hcfg hend] at h
    cases h
    exact ⟨cfg, hcfg, by simp⟩
  · intro o
    simp [opensearchserverless.NewClient.optFn, hend, assertString, bind, Except.bind, pure,
      Except.pure]
  · intro cfg hcfg
    refine ⟨_, opensearchserverless_NewClient_ok f2 config cfg "" hcfg hend, ?_, ?_, ?_⟩ <;>
      simp [opensearchserverless_sdkv2.Client.endpoint]
  · intro c err h
    obtain ⟨cfg, e2, hcfg, hend2⟩ := opensearchserverless_NewClient_inv f2 config c err h
    rw [opensearchserverless_NewClient_ok f2 config cfg "" hcfg hend] at h
    cases h
    exact ⟨cfg, hcfg, by simp⟩

/-- C3 at a concrete input: with the empty endpoint both factories produce a
client whose configured endpoint is the one the sample vendor resolution yields
for us-west-2. -/
theorem NewClient_empty_endpoint_keeps_resolver_witness :
    sampleConfig "" "endpoint" = some (any.string "") ∧
    (∃ c, logs.NewClient sampleLogsOptions (sampleConfig "") = .ok (c, none) ∧
        c.endpoint = "https://logs.us-west-2.amazonaws.com") ∧
    (∃ c, opensearchserverless.NewClient sampleOpenSearchOptions (sampleConfig "") =
        .ok (c, none) ∧ c.endpoint = "https://aoss.us-west-2.amazonaws.com") := by
  have h := NewClient_empty_endpoint_keeps_resolver sampleLogsOptions sampleOpenSearchOptions
    (sampleConfig "") rfl
  refine ⟨rfl, ?_, ?_⟩
  · obtain ⟨c, hc, _, _, hc2⟩ := h.1.2.1 { Region := "us-west-2" } rfl
    exact ⟨c, hc, by rw [hc2]; decide⟩
  · obtain ⟨c, hc, _, _, hc2⟩ := h.2.2.1 { Region := "us-west-2" } rfl
    exact ⟨c, hc, by rw [hc2]; decide⟩

/-- C4: NewConn of logs follows the endpoint override policy. For a
configuration mapping that holds a session and an "endpoint" string `e`, the
client is built from a copy of the session into which the endpoint `e` was
merged (the rest of the session's configuration is kept); the endpoint override
of that copy is `e` when `e` is non-empty, and there is none (default
resolution) when `e` is the empty string, whatever endpoint the session had. -/
theorem NewConn_endpoint_policy (config : ConfigMap) (sess : session_sdkv1.Session)
    (e : String)
    (hsess : config "session" = some (any.session (some sess)))
    (hend : config "endpoint" = some (any.string e)) :
    ∃ c, logs.NewConn config = .ok (c, none) ∧
      c = cloudwatchlogs_sdkv1.New (sess.Copy [{ Endpoint := some e }]) ∧
      c.Config.Endpoint = some e ∧
      c.Config.Region = sess.Config.Region ∧
      (e ≠ "" → aws_sdkv1.endpointOverride c.Config = some e) ∧
      (e = "" → aws_sdkv1.endpointOverride c.Config = none) := by
  refine ⟨_, logs_NewConn_ok config sess e hsess hend, rfl, rfl, ?_, ?_, ?_⟩
  · simp [cloudwatchlogs_sdkv1.New, session_sdkv1.Session.Copy, aws_sdkv1.mergeInConfig,
      aws_sdkv1.String']
  · intro hne
    simp [cloudwatchlogs_sdkv1.New, session_sdkv1.Session.Copy, aws_sdkv1.mergeInConfig,
      aws_sdkv1.String', aws_sdkv1.endpointOverride, aws_sdkv1.StringValue, hne]
  · intro he
    simp [cloudwatchlogs_sdkv1.New, session_sdkv1.Session.Copy, aws_sdkv1.mergeInConfig,
      aws_sdkv1.String', aws_sdkv1.endpointOverride, aws_sdkv1.StringValue, he]

/-- C4 at concrete inputs: with the endpoint "http://localhost:4566" the client's
session copy has that endpoint override, and with the empty endpoint it has
none. -/
theorem NewConn_endpoint_policy_witness :
    (sampleConfig "http://localhost:4566" "session" =
        some (any.session (some { Config := { Region := some "us-west-2" } })) ∧
     sampleConfig "http://localhost:4566" "endpoint" =
        some (any.string "http://localhost:4566") ∧
     ∃ c, logs.NewConn (sampleConfig "http://localhost:4566") = .ok (c, none) ∧
        aws_sdkv1.endpointOverride c.Config = some "http://localhost:4566") ∧
    (∃ c, logs.NewConn (sampleConfig "") = .ok (c, none) ∧
        aws_sdkv1.endpointOverride c.Config = none) := by
  refine ⟨⟨rfl, rfl, ?_⟩, ?_⟩
  · obtain ⟨c, hc, _, _, _, h1, _⟩ :=
      NewConn_endpoint_policy (sampleConfig "http://localhost:4566")
        { Config := { Region := some "us-west-2" } } "http://localhost:4566" rfl rfl
    exact ⟨c, hc, h1 (by decide)⟩
  · obtain ⟨c, hc, _, _, _, _, h2⟩ :=
      NewConn_endpoint_policy (sampleConfig "")
        { Config := { Region := some "us-west-2" } } "" rfl rfl
    exact ⟨c, hc, h2 rfl⟩

/-- C5: a client factory fails exactly on a malformed configuration mapping.
NewClient of logs and of opensearchserverless returns a client with a nil error
exactly when "aws_sdkv2_config" holds an SDK v2 configuration and "endpoint"
holds a string, NewConn of logs exactly when "session" holds an SDK v1 session
and "endpoint" holds a string; on every other mapping (a key absent, a value of
another type, a nil pointer) the factory panics; and no factory returns a
non-nil error with a client. -/
theorem factories_fail_iff_malformed
    (f1 : aws_sdkv2.Config → cloudwatchlogs_sdkv2.Options)
    (f2 : aws_sdkv2.Config → opensearchserverless_sdkv2.Options)
    (config : ConfigMap) :
    (((∃ c, logs.NewClient f1 config = .ok (c, none)) ↔
        ∃ cfg e, config "aws_sdkv2_config" = some (any.sdkv2Config (some cfg)) ∧
          config "endpoint" = some (any.string e)) ∧
     ((∃ p, logs.NewClient f1 config = .error p) ↔
        ¬ ∃ cfg e, config "aws_sdkv2_config" = some (any.sdkv2Config (some cfg)) ∧
          config "endpoint" = some (any.string e)) ∧
     (∀ c err, logs.NewClient f1 config = .ok (c, err) → err = none)) ∧
    (((∃ c, opensearchserverless.NewClient f2 config = .ok (c, none)) ↔
        ∃ cfg e, config "aws_sdkv2_config" = some (any.sdkv2Config (some cfg)) ∧
          config "endpoint" = some (any.string e)) ∧
     ((∃ p, opensearchserverless.NewClient f2 config = .error p) ↔
        ¬ ∃ cfg e, config "aws_sdkv2_config" = some (any.sdkv2Config (some cfg)) ∧
          config "endpoint" = some (any.string e)) ∧
     (∀ c err, opensearchserverless.NewClient f2 config = .ok (c, err) → err = none)) ∧
    (((∃ c, logs.NewConn config = .ok (c, none)) ↔
        ∃ sess e, config "session" = some (any.session (some sess)) ∧
          config "endpoint" = some (any.string e)) ∧
     ((∃ p, logs.NewConn config = .error p) ↔
        ¬ ∃ sess e, config "session" = some (any.session (some sess)) ∧
          config "endpoint" = some (any.string e)) ∧
     (∀ c err, logs.NewConn config = .ok (c, err) → err = none)) := by
  refine ⟨?_, ?_, ?_⟩
  · exact factory_fails_iff _ _
      (fun ⟨cfg, e, h1, h2⟩ => ⟨_, logs_NewClient_ok f1 config cfg e h1 h2⟩)
      (fun c err h => logs_NewClient_inv f1 config c err h)
  · exact factory_fails_iff _ _
      (fun ⟨cfg, e, h1, h2⟩ => ⟨_, opensearchserverless_NewClient_ok f2 config cfg e h1 h2⟩)
      (fun c err h => opensearchserverless_NewClient_inv f2 config c err h)
  · exact factory_fails_iff _ _
      (fun ⟨sess, e, h1, h2⟩ => ⟨_, logs_NewConn_ok config sess e h1 h2⟩)
      (fun c err h => logs_NewConn_inv config c err h)

/-- The factories on concrete malformed mappings: on the empty mapping each one
panics at its first type assertion, with a nil pointer under the first key it
panics on the pointer's use, and without a string under "endpoint" it panics at
that assertion. -/
theorem factories_on_malformed_samples :
    logs.NewConn (fun _ => none) = .error (Panic.typeAssertion "session") ∧
    logs.NewConn (fun k => if k = "session" then some (any.session none)
        else if k = "endpoint" then some (any.string "") else none) =
      .error Panic.nilDereference ∧
    logs.NewConn (fun k => if k = "session" then some (any.session (some ⟨{}⟩))
        else if k = "endpoint" then some (any.other "int") else none) =
      .error (Panic.typeAssertion "endpoint") ∧
    (∃ p, logs.NewClient sampleLogsOptions (fun _ => none) = .error p ∧
      p = Panic.typeAssertion "aws_sdkv2_config") ∧
    (∃ p, opensearchserverless.NewClient sampleOpenSearchOptions
        (fun k => if k = "aws_sdkv2_config" then some (any.sdkv2Config (some {})) else none) =
        .error p ∧ p = Panic.typeAssertion "endpoint") := by
  refine ⟨rfl, rfl, rfl, ⟨_, rfl, rfl⟩, ⟨_, rfl, rfl⟩⟩

/-! ## Theorems: the destroy check -/

/-- C8: the destroy check, over an arbitrary state, lookup and not-found test.
It returns no error exactly when the lookup reports "not found" for the ID of
every root-module resource of type "aws_datasync_location_s3". Only IDs of
resources of that type are looked up; the run is the same on the state with all
other resources removed and under any lookup that agrees on the IDs of the
resources of that type. An error it returns is, for some resource of that type
whose lookup did not report "not found", either the lookup's own error,
unchanged, or, when the lookup returned no error, the error whose message is
"DataSync Location S3 ", the resource's ID, " still exists". -/
theorem testAccCheckLocationS3Destroy_spec {Output : Type}
    (NotFound : Option error → Bool)
    (Find : String → Option Output × Option error) (s : terraform.State) :
    ((datasync_test.testAccCheckLocationS3Destroy NotFound Find s).err = none ↔
       ∀ kv ∈ s.RootModule.Resources, kv.2.Type' = "aws_datasync_location_s3" →
         NotFound (Find kv.2.Primary.ID).2 = true) ∧
    (∀ id ∈ (datasync_test.testAccCheckLocationS3Destroy NotFound Find s).lookups,
       ∃ kv ∈ s.RootModule.Resources,
         kv.2.Type' = "aws_datasync_location_s3" ∧ kv.2.Primary.ID = id) ∧
    (datasync_test.testAccCheckLocationS3Destroy NotFound Find s =
       datasync_test.testAccCheckLocationS3Destroy NotFound Find
         { RootModule := { Resources := (s.RootModule.Resources.filter
             (fun kv => kv.2.Type' = "aws_datasync_location_s3")) } }) ∧
    (∀ Find2 : String → Option Output × Option error,
       (∀ kv ∈ s.RootModule.Resources, kv.2.Type' = "aws_datasync_location_s3" →
          (Find2 kv.2.Primary.ID).2 = (Find kv.2.Primary.ID).2) →
       datasync_test.testAccCheckLocationS3Destroy NotFound Find2 s =
         datasync_test.testAccCheckLocationS3Destroy NotFound Find s) ∧
    (∀ e, (datasync_test.testAccCheckLocationS3Destroy NotFound Find s).err = some e →
       ∃ kv ∈ s.RootModule.Resources, kv.2.Type' = "aws_datasync_location_s3" ∧
         NotFound (Find kv.2.Primary.ID).2 = false ∧
         ((Find kv.2.Primary.ID).2 = some e ∨
           ((Find kv.2.Primary.ID).2 = none ∧
             e = error.errorString
               ("DataSync Location S3 " ++ kv.2.Primary.ID ++ " still exists")))) :=
  ⟨datasync_test.loop_err_none_iff NotFound Find _,
   datasync_test.loop_lookups NotFound Find _,
   datasync_test.loop_filter NotFound Find _,
   fun Find2 h => datasync_test.loop_congr NotFound Find Find2 _ h,
   fun e he => datasync_test.loop_err_some NotFound Find _ e he⟩

/-- The destroy check on the sample states: a location that is gone passes, with
one lookup; a failing lookup hands its error through; a location that is still
there gives the "still exists" error. -/
theorem testAccCheckLocationS3Destroy_samples :
    datasync_test.testAccCheckLocationS3Destroy sampleNotFound sampleFind
        (sampleState "loc-gone") = { err := none, lookups := ["loc-gone"] } ∧
    datasync_test.testAccCheckLocationS3Destroy sampleNotFound sampleFind
        (sampleState "loc-denied") =
      { err := some (error.other "awserr.Error" "AccessDenied"), lookups := ["loc-denied"] } ∧
    datasync_test.testAccCheckLocationS3Destroy sampleNotFound sampleFind
        (sampleState "loc-1") =
      { err := some (error.errorString "DataSync Location S3 loc-1 still exists"),
        lookups := ["loc-1"] } := by
  decide
